import Mathlib

/-!
Shallow embedding of `src/extract_gpuinfo_intel.c` (nvtop's Intel GPU
per-process accounting backend).

Modelling conventions:
* C machine integers become `Nat` (`unsigned`/`uint64_t`); truncating
  assignments carry an explicit `% 2 ^ 32`; `pid_t` becomes `Int`.
* The packed-bitmask "value + valid bit" pattern (`SET_GPUINFO_PROCESS`,
  `SET_INTEL_CACHE`, `GPUINFO_PROCESS_FIELD_VALID`, ...) becomes `Option Nat`:
  `some v` models value `v` with its valid bit set, `none` a cleared bit
  (a cleared bit makes the stored value unreadable, so no information is lost).
* The uthash table rooted at the `hh` handle becomes a `List` of entries;
  `HASH_ADD` puts the new entry at the head of its bucket, so insertion is
  modelled as `cons`, and `HASH_FIND` scans the bucket, modelled as `find?`.
* The fdinfo stream is modelled after `extract_drm_fdinfo_key_value` (declared
  in a header outside `src/`) has run on each line: a line is
  `Option (String × String)`, `none` when key/value extraction failed.
* `getline`, `FILE *` and the static line buffer are I/O plumbing with no
  observable effect on the results and are not modelled.
-/

set_option autoImplicit false

namespace NvtopIntel

/-- Modelled from the spec: the device-identity key of the telemetry format
(`drm_pdev` is declared in a header outside `src/`; the spec's end-to-end
scenario shows the literal line `drm-pdev: 0000:00:02.0`). -/
def drm_pdev : String := "drm-pdev"

/-- Modelled from the spec: the client-id key of the telemetry format
(`drm_client_id` is declared in a header outside `src/`; the spec's scenario
shows the literal line `drm-client-id: 7`). -/
def drm_client_id : String := "drm-client-id"

/-- Source line 115: `static const char drm_intel_render[] = "drm-engine-render";` -/
def drm_intel_render : String := "drm-engine-render"

/-- Source line 116: `static const char drm_intel_copy[] = "drm-engine-copy";` -/
def drm_intel_copy : String := "drm-engine-copy"

/-- Source line 117: `static const char drm_intel_video[] = "drm-engine-video";` -/
def drm_intel_video : String := "drm-engine-video"

/-- Source line 118: `static const char drm_intel_video_enhance[] = "drm-engine-video-enhance";` -/
def drm_intel_video_enhance : String := "drm-engine-video-enhance"

/-- Largest value representable in a 64-bit `unsigned long`/`unsigned long long`,
the value `strtoul`/`strtoull` return on out-of-range input. -/
def ULLONG_MAX : Nat := 2 ^ 64 - 1

/-- Consume the longest run of decimal digits from the front of a character
list, accumulating the value; returns the value and the unconsumed remainder. -/
def parseDigits : List Char → Nat → Nat × List Char
  | [], acc => (acc, [])
  | c :: cs, acc =>
    if c.isDigit then parseDigits cs (acc * 10 + (c.toNat - 48)) else (acc, c :: cs)

/-- Model of `strtoul(val, &endptr, 10)` / `strtoull(val, &endptr, 10)` on the
value strings reachable here: the longest decimal-digit run at the front is
converted; the second component models `endptr` (the unconsumed remainder;
when no digit is consumed it equals the whole input, matching
`endptr == val`). Leading whitespace and sign handling of the C functions are
not exercised by the fdinfo format and are not modelled. -/
def strtoul_model (s : String) : Nat × List Char :=
  parseDigits s.toList 0

/-- Source lines 158-161: an engine-time value parses iff `strtoull` consumed
at least one digit (`endptr != val`) and the remainder is exactly `" ns"`;
out-of-range values saturate at `ULLONG_MAX` as `strtoull` does. -/
def strtoull_ns (s : String) : Option Nat :=
  let r := strtoul_model s
  if r.2 = s.toList then none
  else if r.2 = [' ', 'n', 's'] then some (min r.1 ULLONG_MAX) else none

/-- Source lines 47-50: `struct unique_cache_id { unsigned client_id; pid_t pid; }`. -/
structure unique_cache_id where
  client_id : Nat
  pid : Int
  deriving DecidableEq, Repr

/-- The fields of `struct gpu_process` read or written by this file
(`pid`, the three cumulative engine-time fields, and the three derived
busy-percentage fields, each value paired with its valid bit). -/
structure GpuProcess where
  pid : Int
  gfx_engine_used : Option Nat
  dec_engine_used : Option Nat
  enc_engine_used : Option Nat
  gpu_usage : Option Nat
  decode_usage : Option Nat
  encode_usage : Option Nat
  deriving DecidableEq, Repr

/-- Source lines 52-61: `struct intel_process_info_cache` (the `valid` bitmask
is folded into the `Option` fields; the `hh` handle is the containing list). -/
structure intel_process_info_cache where
  client_id : unique_cache_id
  engine_render : Option Nat
  engine_copy : Option Nat
  engine_video : Option Nat
  engine_video_enhance : Option Nat
  last_measurement_tstamp : Nat
  deriving DecidableEq, Repr

/-- Source line 69: the two cache buffers of `struct gpu_info_intel`. -/
structure IntelCaches where
  last_update_process_cache : List intel_process_info_cache
  current_update_process_cache : List intel_process_info_cache
  deriving DecidableEq, Repr

/-- Source line 32: `HASH_FIND(hh, head, key_ptr, sizeof(unsigned), out_ptr)`.
The key length is `sizeof(unsigned)`, which covers only the leading
`client_id` member of the packed `struct unique_cache_id`; the `pid` member is
never compared, so the model takes only the client id. -/
def HASH_FIND_CLIENT (head : List intel_process_info_cache) (key_client_id : Nat) :
    Option intel_process_info_cache :=
  head.find? (fun e => e.client_id.client_id = key_client_id)

/-- The lookup the spec describes: the full Unique Client Key
`{client_id, pid}` is the hash key, so both members must match.
Kept alongside `HASH_FIND_CLIENT` to compare code against spec. -/
def hash_find_client_spec (head : List intel_process_info_cache)
    (key : unique_cache_id) : Option intel_process_info_cache :=
  head.find? (fun e => e.client_id = key)

/-- Source line 188: `HASH_DEL(gpu_info->last_update_process_cache, cache_entry)`
removes the entry that `HASH_FIND_CLIENT` just returned, i.e. the first entry
whose client id matches. -/
def eraseFirstByCid (head : List intel_process_info_cache) (cid : Nat) :
    List intel_process_info_cache :=
  match head with
  | [] => []
  | e :: rest => if e.client_id.client_id = cid then rest else e :: eraseFirstByCid rest cid

/-- Modelled from the spec: `nvtop_difftime_u64` is declared in `nvtop/time.h`,
outside `src/`; the spec calls it "the elapsed wall-clock time between the
cached timestamp and the current measurement", in nanoseconds. -/
def nvtop_difftime_u64 (older newer : Nat) : Nat := newer - older

/-- Modelled from the spec: `busy_usage_from_time_usage_round` is declared in a
header outside `src/`. The spec states: "the derived busy percentage equals
round(100 * (c1 - c0) / t), clamped to [0, 100]" (round half up). -/
def busy_usage_from_time_usage_round (current_use previous_use t : Nat) : Nat :=
  min 100 ((2 * (100 * (current_use - previous_use)) + t) / (2 * t))

/-- Local state of the line loop of `parse_drm_fdinfo_intel` (source lines
122-131): the mutable output record, the `client_id_set` flag and the `cid`
variable (`cid` is assigned on every client-id line, before the `endptr`
check, so it lives in the state even when the flag stays false). -/
structure LoopState where
  process_info : GpuProcess
  client_id_set : Bool
  cid : Nat
  deriving DecidableEq, Repr

/-- Source lines 131-179: one iteration of the line loop. `none` models the
early `return false` on a device-identity mismatch (line 143). The four
engine keys are pairwise distinct, so the source's four independent `if`s
collapse to a chain; the `is_copy` branch is `(void)time_spent`, a no-op. -/
def process_line (pdev : String) (st : LoopState) (l : Option (String × String)) :
    Option LoopState :=
  match l with
  | none => some st
  | some (key, val) =>
    if key = drm_pdev then
      if val ≠ pdev then none else some st
    else if key = drm_client_id then
      let r := strtoul_model val
      let st1 := { st with cid := min r.1 ULLONG_MAX % 2 ^ 32 }
      if r.2 = [] then some { st1 with client_id_set := true } else some st1
    else if key = drm_intel_render ∨ key = drm_intel_copy ∨ key = drm_intel_video ∨
        key = drm_intel_video_enhance then
      match strtoull_ns val with
      | none => some st
      | some time_spent =>
        if key = drm_intel_render then
          some { st with process_info := { st.process_info with gfx_engine_used := some time_spent } }
        else if key = drm_intel_copy then
          some st
        else if key = drm_intel_video then
          some { st with process_info := { st.process_info with enc_engine_used := some time_spent } }
        else
          some { st with process_info := { st.process_info with dec_engine_used := some time_spent } }
    else some st

/-- Source lines 131-179: the whole line loop. The second component is `false`
when the loop exited through `return false` (device-identity mismatch); the
first component is the loop state at that point (the output record is mutated
in place in C, so partial updates survive an early exit). -/
def process_lines (pdev : String) : LoopState → List (Option (String × String)) → LoopState × Bool
  | st, [] => (st, true)
  | st, l :: ls =>
    match process_line pdev st l with
    | none => (st, false)
    | some st1 => process_lines pdev st1 ls

/-- Source lines 189-197: derive `gpu_usage` from `gfx_engine_used` and the
cached `engine_render` when both are valid, the counter did not regress, and
the delta does not exceed the elapsed time. -/
def derive_gfx (p : GpuProcess) (e : intel_process_info_cache) (t : Nat) : GpuProcess :=
  match p.gfx_engine_used, e.engine_render with
  | some cur, some prev =>
    if prev ≤ cur ∧ cur - prev ≤ t then
      { p with gpu_usage := some (busy_usage_from_time_usage_round cur prev t) }
    else p
  | _, _ => p

/-- Source lines 198-205: derive `decode_usage` from `dec_engine_used` and the
cached `engine_video` under the same guards. -/
def derive_dec (p : GpuProcess) (e : intel_process_info_cache) (t : Nat) : GpuProcess :=
  match p.dec_engine_used, e.engine_video with
  | some cur, some prev =>
    if prev ≤ cur ∧ cur - prev ≤ t then
      { p with decode_usage := some (busy_usage_from_time_usage_round cur prev t) }
    else p
  | _, _ => p

/-- Source lines 206-213: derive `encode_usage` from `enc_engine_used` and the
cached `engine_video_enhance` under the same guards. -/
def derive_enc (p : GpuProcess) (e : intel_process_info_cache) (t : Nat) : GpuProcess :=
  match p.enc_engine_used, e.engine_video_enhance with
  | some cur, some prev =>
    if prev ≤ cur ∧ cur - prev ≤ t then
      { p with encode_usage := some (busy_usage_from_time_usage_round cur prev t) }
    else p
  | _, _ => p

/-- Source lines 229-237: `RESET_ALL(cache_entry->valid)` then copy each valid
engine field of the output record into the entry and stamp it. The copy
engine's valid bit is never set anywhere, so it resets to `none`. -/
def update_cache_entry (p : GpuProcess) (now : Nat) (e : intel_process_info_cache) :
    intel_process_info_cache :=
  { e with
    engine_render := p.gfx_engine_used
    engine_copy := none
    engine_video := p.dec_engine_used
    engine_video_enhance := p.enc_engine_used
    last_measurement_tstamp := now }

/-- Source lines 215-219: `calloc(1, sizeof(*cache_entry))` followed by the
two key-field writes — a zeroed entry carrying the Unique Client Key. -/
def fresh_cache_entry (st : LoopState) : intel_process_info_cache :=
  { client_id := { client_id := st.cid, pid := st.process_info.pid }
    engine_render := none
    engine_copy := none
    engine_video := none
    engine_video_enhance := none
    last_measurement_tstamp := 0 }

/-- Result of one `parse_drm_fdinfo_intel` call: the C return value, the
output record pointed to by `process_info`, the two cache buffers of the
device, and the outcome of the debug-time duplicate-client assertion of
source lines 222-227 (`true` when the assertion passes or is never reached). -/
structure ParseResult where
  success : Bool
  process_info : GpuProcess
  caches : IntelCaches
  assert_ok : Bool
  deriving DecidableEq, Repr

/-- Source lines 183-241: the cache lookup/update phase run after the line
loop, once the client id is known. `alloc_ok = false` models `calloc`
returning `NULL` (line 216: `goto parse_fdinfo_exit`, which returns `true`
without touching either buffer). -/
def parse_cache_phase (caches : IntelCaches) (now : Nat) (alloc_ok : Bool)
    (st : LoopState) : ParseResult :=
  match HASH_FIND_CLIENT caches.last_update_process_cache st.cid with
  | some cache_entry =>
    let t := nvtop_difftime_u64 cache_entry.last_measurement_tstamp now
    let pinfo := derive_enc (derive_dec (derive_gfx st.process_info cache_entry t) cache_entry t)
      cache_entry t
    { success := true
      process_info := pinfo
      caches :=
        { last_update_process_cache := eraseFirstByCid caches.last_update_process_cache st.cid
          current_update_process_cache :=
            update_cache_entry pinfo now cache_entry :: caches.current_update_process_cache }
      assert_ok := (HASH_FIND_CLIENT caches.current_update_process_cache st.cid).isNone }
  | none =>
    if alloc_ok = false then
      { success := true, process_info := st.process_info, caches := caches, assert_ok := true }
    else
      { success := true
        process_info := st.process_info
        caches :=
          { last_update_process_cache := caches.last_update_process_cache
            current_update_process_cache :=
              update_cache_entry st.process_info now (fresh_cache_entry st) ::
                caches.current_update_process_cache }
        assert_ok := (HASH_FIND_CLIENT caches.current_update_process_cache st.cid).isNone }

/-- Source lines 120-242: `parse_drm_fdinfo_intel`. Inputs: the device's bus
address `pdev`, its two cache buffers, the current timestamp, whether `calloc`
succeeds, the mutable output record, and the pre-split fdinfo lines. -/
def parse_drm_fdinfo_intel (pdev : String) (caches : IntelCaches) (now : Nat)
    (alloc_ok : Bool) (process_info : GpuProcess)
    (lines : List (Option (String × String))) : ParseResult :=
  match process_lines pdev { process_info := process_info, client_id_set := false, cid := 0 } lines with
  | (st, false) =>
    { success := false, process_info := st.process_info, caches := caches, assert_ok := true }
  | (st, true) =>
    if st.client_id_set = false then
      { success := false, process_info := st.process_info, caches := caches, assert_ok := true }
    else parse_cache_phase caches now alloc_ok st

/-- Source lines 359-370: `swap_process_cache_for_next_update` — free every
entry still in the previous buffer, promote the current buffer to previous,
reset current to empty. -/
def swap_process_cache_for_next_update (caches : IntelCaches) : IntelCaches :=
  { last_update_process_cache := caches.current_update_process_cache
    current_update_process_cache := [] }

/-- Source lines 372-377: `gpuinfo_intel_get_running_processes` just performs
the end-of-cycle swap (the fdinfo callback has already filled the records). -/
def gpuinfo_intel_get_running_processes (caches : IntelCaches) : IntelCaches :=
  swap_process_cache_for_next_update caches

/-- One fdinfo record presented by the external process scanner during a
polling cycle: the per-process output record (carrying the pid), the pre-split
telemetry lines, whether the entry allocation succeeds, and the measurement
timestamp. -/
structure FdinfoRecord where
  pinfo : GpuProcess
  lines : List (Option (String × String))
  alloc_ok : Bool
  time : Nat
  deriving DecidableEq, Repr

/-- The client id under which a record reaches the cache phase of
`parse_drm_fdinfo_intel`, `none` when the record is rejected before touching
the cache (identity mismatch or missing client id). -/
def record_cid (pdev : String) (pinfo : GpuProcess)
    (lines : List (Option (String × String))) : Option Nat :=
  match process_lines pdev { process_info := pinfo, client_id_set := false, cid := 0 } lines with
  | (_, false) => none
  | (st, true) => if st.client_id_set then some st.cid else none

/-- Cache effect of one scanner callback invocation. -/
def run_parse_step (pdev : String) (caches : IntelCaches) (r : FdinfoRecord) : IntelCaches :=
  (parse_drm_fdinfo_intel pdev caches r.time r.alloc_ok r.pinfo r.lines).caches

/-- Modelled from the spec: one full polling cycle — the external process
scanner invokes the registered parser once per GPU-backed descriptor, then the
"processes done" hook runs `gpuinfo_intel_get_running_processes`, which swaps
the cache buffers. -/
def run_cycle (pdev : String) (caches : IntelCaches) (records : List FdinfoRecord) : IntelCaches :=
  gpuinfo_intel_get_running_processes (records.foldl (run_parse_step pdev) caches)

/-- Source line 143's test for one line: the line carries the device-identity
key and its value differs from this device's bus address. -/
def line_pdev_mismatch (pdev : String) (l : Option (String × String)) : Bool :=
  match l with
  | some (key, val) => key = drm_pdev ∧ val ≠ pdev
  | none => false

/-- Source lines 145-150's test for one line: the line carries the client-id
key and `strtoul` consumes the whole value (`*endptr == 0`), so
`client_id_set` becomes true. -/
def line_sets_client_id (l : Option (String × String)) : Bool :=
  match l with
  | some (key, val) => key = drm_client_id ∧ (strtoul_model val).2 = []
  | none => false

/-- The fields of `struct gpuinfo_dynamic_info` the spec's claim is about:
current/maximum GPU core clock and current/maximum memory clock, each an
`unsigned` paired with its valid bit. -/
structure GpuinfoDynamicInfo where
  gpu_clock_speed : Option Nat
  gpu_clock_speed_max : Option Nat
  mem_clock_speed : Option Nat
  mem_clock_speed_max : Option Nat
  deriving DecidableEq, Repr

/-- The four sysfs attribute values `gpuinfo_intel_refresh_dynamic_info`
reads (source lines 329, 334, 342, 347); `none` models
`udev_device_get_sysattr_value` returning `NULL` (attribute missing). -/
structure IntelSysattrs where
  gt_cur_freq_mhz : Option String
  gt_max_freq_mhz : Option String
  mem_cur_freq_mhz : Option String
  mem_max_freq_mhz : Option String
  deriving DecidableEq, Repr

/-- Model of `strtoul(s, NULL, 10)` assigned to an `unsigned` (source lines
331, 336, 344, 349). -/
def strtoul_unsigned (s : String) : Nat :=
  min (strtoul_model s).1 ULLONG_MAX % 2 ^ 32

/-- Source lines 324-357: `gpuinfo_intel_refresh_dynamic_info`. Each present
attribute is parsed and stored with `SET_GPUINFO_DYNAMIC(dynamic_info,
gpu_clock_speed, val)` — all four writes target the `gpu_clock_speed` field,
exactly as the source does. -/
def gpuinfo_intel_refresh_dynamic_info (attrs : IntelSysattrs)
    (d : GpuinfoDynamicInfo) : GpuinfoDynamicInfo :=
  let d := match attrs.gt_cur_freq_mhz with
    | some s => { d with gpu_clock_speed := some (strtoul_unsigned s) }
    | none => d
  let d := match attrs.gt_max_freq_mhz with
    | some s => { d with gpu_clock_speed := some (strtoul_unsigned s) }
    | none => d
  let d := match attrs.mem_cur_freq_mhz with
    | some s => { d with gpu_clock_speed := some (strtoul_unsigned s) }
    | none => d
  let d := match attrs.mem_max_freq_mhz with
    | some s => { d with gpu_clock_speed := some (strtoul_unsigned s) }
    | none => d
  d

/-! Concrete sample inputs used to instantiate the theorems below. -/

/-- A fresh per-process usage record as the scanner hands it to the parser:
all engine-time and usage fields unset. -/
def sampleProcess (pid : Int) : GpuProcess :=
  { pid := pid, gfx_engine_used := none, dec_engine_used := none, enc_engine_used := none,
    gpu_usage := none, decode_usage := none, encode_usage := none }

/-- Empty cache state, as on a freshly registered device. -/
def emptyCaches : IntelCaches :=
  { last_update_process_cache := [], current_update_process_cache := [] }

/-- Cache entry for client 7 of pid 10 holding a render sample of 10^9 ns
taken at time 0. -/
def entryRender7 : intel_process_info_cache :=
  { client_id := { client_id := 7, pid := 10 }, engine_render := some 1000000000,
    engine_copy := none, engine_video := none, engine_video_enhance := none,
    last_measurement_tstamp := 0 }

/-- Cache entry for client 5 of pid 10, no samples yet. -/
def entryClient5 : intel_process_info_cache :=
  { client_id := { client_id := 5, pid := 10 }, engine_render := none,
    engine_copy := none, engine_video := none, engine_video_enhance := none,
    last_measurement_tstamp := 0 }

/-- Loop state after reading `drm-client-id: 7` and
`drm-engine-render: 1050000000 ns` into a fresh record of pid 10. -/
def procRender7 : GpuProcess :=
  { pid := 10, gfx_engine_used := some 1050000000, dec_engine_used := none,
    enc_engine_used := none, gpu_usage := none, decode_usage := none, encode_usage := none }

/-- Loop state wrapping `procRender7` once the client id 7 has been read. -/
def stRender7 : LoopState :=
  { process_info := procRender7, client_id_set := true, cid := 7 }

/-- Loop state after reading only `drm-client-id: 5` into a fresh record of
pid 10. -/
def stClient5 : LoopState :=
  { process_info := sampleProcess 10, client_id_set := true, cid := 5 }

/-- Loop state after reading only `drm-client-id: 5` into a fresh record of
pid 20. -/
def stClient5Pid20 : LoopState :=
  { process_info := sampleProcess 20, client_id_set := true, cid := 5 }

/-- A cycle record for client 9 of pid 20 (used to exercise eviction of an
unrelated cached client). -/
def recordClient9 : FdinfoRecord :=
  { pinfo := sampleProcess 20, lines := [some ("drm-client-id", "9")], alloc_ok := true,
    time := 7 }

/-- Cache state after one cycle that saw client 5 of pid 10 with a render
sample of 1000 ns at time 0, followed by the end-of-cycle swap. -/
def cachesAfterClient5 : IntelCaches :=
  gpuinfo_intel_get_running_processes
    (parse_drm_fdinfo_intel "0000:00:02.0" emptyCaches 0 true (sampleProcess 10)
      [some ("drm-client-id", "5"), some ("drm-engine-render", "1000 ns")]).caches

/-- The entry `cachesAfterClient5` holds: client 5 of pid 10, render counter
1000 ns, stamped at time 0. -/
def entryClient5Render1000 : intel_process_info_cache :=
  { client_id := { client_id := 5, pid := 10 }, engine_render := some 1000,
    engine_copy := none, engine_video := none, engine_video_enhance := none,
    last_measurement_tstamp := 0 }

/-- Record of pid 10 with only the graphics engine time 100 ns set. -/
def procRender100 : GpuProcess :=
  { pid := 10, gfx_engine_used := some 100, dec_engine_used := none,
    enc_engine_used := none, gpu_usage := none, decode_usage := none, encode_usage := none }

/-- Loop state holding `procRender100` after a stream that never set the
client id. -/
def stRender100NoClient : LoopState :=
  { process_info := procRender100, client_id_set := false, cid := 0 }

end NvtopIntel

namespace NvtopIntel

/-! Helper lemmas about the derivation steps: each `derive_*` function writes
only its own busy-percentage field and reads fields no other step writes. -/

theorem derive_gfx_dec_engine_used (p : GpuProcess) (e : intel_process_info_cache) (t : Nat) :
    (derive_gfx p e t).dec_engine_used = p.dec_engine_used := by
  unfold derive_gfx
  split <;> first | rfl | (split <;> rfl)

theorem derive_gfx_enc_engine_used (p : GpuProcess) (e : intel_process_info_cache) (t : Nat) :
    (derive_gfx p e t).enc_engine_used = p.enc_engine_used := by
  unfold derive_gfx
  split <;> first | rfl | (split <;> rfl)

theorem derive_gfx_decode_usage (p : GpuProcess) (e : intel_process_info_cache) (t : Nat) :
    (derive_gfx p e t).decode_usage = p.decode_usage := by
  unfold derive_gfx
  split <;> first | rfl | (split <;> rfl)

theorem derive_gfx_encode_usage (p : GpuProcess) (e : intel_process_info_cache) (t : Nat) :
    (derive_gfx p e t).encode_usage = p.encode_usage := by
  unfold derive_gfx
  split <;> first | rfl | (split <;> rfl)

theorem derive_dec_gpu_usage (p : GpuProcess) (e : intel_process_info_cache) (t : Nat) :
    (derive_dec p e t).gpu_usage = p.gpu_usage := by
  unfold derive_dec
  split <;> first | rfl | (split <;> rfl)

theorem derive_dec_enc_engine_used (p : GpuProcess) (e : intel_process_info_cache) (t : Nat) :
    (derive_dec p e t).enc_engine_used = p.enc_engine_used := by
  unfold derive_dec
  split <;> first | rfl | (split <;> rfl)

theorem derive_dec_encode_usage (p : GpuProcess) (e : intel_process_info_cache) (t : Nat) :
    (derive_dec p e t).encode_usage = p.encode_usage := by
  unfold derive_dec
  split <;> first | rfl | (split <;> rfl)

theorem derive_enc_gpu_usage (p : GpuProcess) (e : intel_process_info_cache) (t : Nat) :
    (derive_enc p e t).gpu_usage = p.gpu_usage := by
  unfold derive_enc
  split <;> first | rfl | (split <;> rfl)

theorem derive_enc_decode_usage (p : GpuProcess) (e : intel_process_info_cache) (t : Nat) :
    (derive_enc p e t).decode_usage = p.decode_usage := by
  unfold derive_enc
  split <;> first | rfl | (split <;> rfl)

theorem derive_gfx_pos (p : GpuProcess) (e : intel_process_info_cache) (t c1 c0 : Nat)
    (h1 : p.gfx_engine_used = some c1) (h0 : e.engine_render = some c0)
    (hmono : c0 ≤ c1) (hdelta : c1 - c0 ≤ t) :
    (derive_gfx p e t).gpu_usage = some (busy_usage_from_time_usage_round c1 c0 t) := by
  unfold derive_gfx
  rw [h1, h0]
  simp [hmono, hdelta]

theorem derive_gfx_neg (p : GpuProcess) (e : intel_process_info_cache) (t c1 c0 : Nat)
    (h1 : p.gfx_engine_used = some c1) (h0 : e.engine_render = some c0)
    (hbad : c1 < c0 ∨ t < c1 - c0) :
    (derive_gfx p e t).gpu_usage = p.gpu_usage := by
  unfold derive_gfx
  rw [h1, h0]
  have hn : ¬(c0 ≤ c1 ∧ c1 ≤ t + c0) := by omega
  simp [hn]

theorem derive_dec_pos (p : GpuProcess) (e : intel_process_info_cache) (t c1 c0 : Nat)
    (h1 : p.dec_engine_used = some c1) (h0 : e.engine_video = some c0)
    (hmono : c0 ≤ c1) (hdelta : c1 - c0 ≤ t) :
    (derive_dec p e t).decode_usage = some (busy_usage_from_time_usage_round c1 c0 t) := by
  unfold derive_dec
  rw [h1, h0]
  simp [hmono, hdelta]

theorem derive_dec_neg (p : GpuProcess) (e : intel_process_info_cache) (t c1 c0 : Nat)
    (h1 : p.dec_engine_used = some c1) (h0 : e.engine_video = some c0)
    (hbad : c1 < c0 ∨ t < c1 - c0) :
    (derive_dec p e t).decode_usage = p.decode_usage := by
  unfold derive_dec
  rw [h1, h0]
  have hn : ¬(c0 ≤ c1 ∧ c1 ≤ t + c0) := by omega
  simp [hn]

theorem derive_enc_pos (p : GpuProcess) (e : intel_process_info_cache) (t c1 c0 : Nat)
    (h1 : p.enc_engine_used = some c1) (h0 : e.engine_video_enhance = some c0)
    (hmono : c0 ≤ c1) (hdelta : c1 - c0 ≤ t) :
    (derive_enc p e t).encode_usage = some (busy_usage_from_time_usage_round c1 c0 t) := by
  unfold derive_enc
  rw [h1, h0]
  simp [hmono, hdelta]

theorem derive_enc_neg (p : GpuProcess) (e : intel_process_info_cache) (t c1 c0 : Nat)
    (h1 : p.enc_engine_used = some c1) (h0 : e.engine_video_enhance = some c0)
    (hbad : c1 < c0 ∨ t < c1 - c0) :
    (derive_enc p e t).encode_usage = p.encode_usage := by
  unfold derive_enc
  rw [h1, h0]
  have hn : ¬(c0 ≤ c1 ∧ c1 ≤ t + c0) := by omega
  simp [hn]


/-! Helper lemmas about the line loop. -/

theorem process_line_none (pdev : String) (st : LoopState) :
    process_line pdev st none = some st := rfl

theorem process_line_mismatch (pdev : String) (st : LoopState) (v : String)
    (hv : ¬(v = pdev)) : process_line pdev st (some (drm_pdev, v)) = none := by
  simp [process_line, hv]

theorem process_line_eq_none (pdev : String) (st : LoopState) (l : Option (String × String))
    (h : process_line pdev st l = none) : line_pdev_mismatch pdev l = true := by
  cases l with
  | none => simp [process_line] at h
  | some kv =>
    obtain ⟨k, v⟩ := kv
    simp only [process_line] at h
    by_cases hk : k = drm_pdev
    · rw [if_pos hk] at h
      by_cases hv : v = pdev
      · simp [hv] at h
      · simp [line_pdev_mismatch, hk, hv]
    · exfalso
      rw [if_neg hk] at h
      by_cases hc : k = drm_client_id
      · rw [if_pos hc] at h
        split_ifs at h
      · rw [if_neg hc] at h
        split at h
        · cases hs : strtoull_ns v <;> rw [hs] at h
          · simp at h
          · split_ifs at h
        · simp at h

theorem process_line_client_id_set (pdev : String) (st : LoopState)
    (l : Option (String × String)) (st1 : LoopState)
    (h : process_line pdev st l = some st1) :
    st1.client_id_set = (st.client_id_set || line_sets_client_id l) := by
  cases l with
  | none =>
    rw [process_line_none] at h
    cases h
    simp [line_sets_client_id]
  | some kv =>
    obtain ⟨k, v⟩ := kv
    simp only [process_line] at h
    by_cases hk : k = drm_pdev
    · rw [if_pos hk] at h
      by_cases hv : v = pdev
      · simp only [hv, ne_eq, not_true_eq_false, if_false, reduceIte, Option.some.injEq] at h
        have hnc : ¬(k = drm_client_id) := by rw [hk]; decide
        cases h
        simp [line_sets_client_id, hnc]
      · simp [hv] at h
    · rw [if_neg hk] at h
      by_cases hc : k = drm_client_id
      · rw [if_pos hc] at h
        by_cases hr : (strtoul_model v).2 = []
        · rw [if_pos hr] at h
          cases h
          simp [line_sets_client_id, hc, hr]
        · rw [if_neg hr] at h
          cases h
          simp [line_sets_client_id, hc, hr]
      · rw [if_neg hc] at h
        have hls : line_sets_client_id (some (k, v)) = false := by
          simp [line_sets_client_id, hc]
        rw [hls, Bool.or_false]
        split at h
        · cases hs : strtoull_ns v <;> rw [hs] at h
          · cases h; rfl
          · split_ifs at h <;> cases h <;> rfl
        · cases h; rfl

theorem process_lines_spec (pdev : String) :
    ∀ (ls : List (Option (String × String))) (st : LoopState),
      ((process_lines pdev st ls).2 = false ↔ ∃ l ∈ ls, line_pdev_mismatch pdev l = true) ∧
      ((process_lines pdev st ls).2 = true →
        (process_lines pdev st ls).1.client_id_set =
          (st.client_id_set || ls.any line_sets_client_id)) := by
  intro ls
  induction ls with
  | nil =>
    intro st
    constructor
    · simp [process_lines]
    · intro _
      simp [process_lines]
  | cons l ls ih =>
    intro st
    cases hpl : process_line pdev st l with
    | none =>
      have hml : line_pdev_mismatch pdev l = true := process_line_eq_none pdev st l hpl
      constructor
      · simp only [process_lines, hpl]
        simp [hml]
      · intro htrue
        simp only [process_lines, hpl] at htrue
        simp at htrue
    | some st1 =>
      have hnm : line_pdev_mismatch pdev l = false := by
        by_contra hcontra
        have hml : line_pdev_mismatch pdev l = true := by
          revert hcontra
          cases line_pdev_mismatch pdev l <;> simp
        rcases l with _ | ⟨k, v⟩
        · simp [line_pdev_mismatch] at hml
        · simp only [line_pdev_mismatch, decide_eq_true_eq] at hml
          have hk : k = drm_pdev := by
            by_contra hknot
            simp [hknot] at hml
          have hv : ¬(v = pdev) := by
            by_contra hvnot
            simp [hk, hvnot] at hml
          rw [hk] at hpl
          rw [process_line_mismatch pdev st v hv] at hpl
          exact Option.noConfusion hpl
      constructor
      · simp only [process_lines, hpl]
        rw [(ih st1).1]
        simp [hnm]
      · intro htrue
        simp only [process_lines, hpl] at htrue ⊢
        rw [(ih st1).2 htrue, process_line_client_id_set pdev st l st1 hpl]
        simp [Bool.or_assoc]

theorem parse_cache_phase_success (caches : IntelCaches) (now : Nat) (alloc_ok : Bool)
    (st : LoopState) : (parse_cache_phase caches now alloc_ok st).success = true := by
  unfold parse_cache_phase
  split
  · rfl
  · split_ifs <;> rfl

theorem parse_success_eq (pdev : String) (caches : IntelCaches) (now : Nat) (alloc_ok : Bool)
    (p : GpuProcess) (lines : List (Option (String × String))) :
    (parse_drm_fdinfo_intel pdev caches now alloc_ok p lines).success =
      ((process_lines pdev { process_info := p, client_id_set := false, cid := 0 } lines).2 &&
        (process_lines pdev { process_info := p, client_id_set := false, cid := 0 } lines).1.client_id_set) := by
  unfold parse_drm_fdinfo_intel
  rcases hpl : process_lines pdev { process_info := p, client_id_set := false, cid := 0 } lines
    with ⟨st, ok⟩
  cases ok
  · rfl
  · by_cases hset : st.client_id_set = false
    · simp [hset]
    · have hset2 : st.client_id_set = true := by
        revert hset
        cases st.client_id_set <;> simp
      simp [hset2, parse_cache_phase_success]

/-! Helper lemmas about the hash lookup. -/

theorem find_client_cid {l : List intel_process_info_cache} {c : Nat}
    {e : intel_process_info_cache} (h : HASH_FIND_CLIENT l c = some e) :
    e.client_id.client_id = c := by
  have := List.find?_some h
  simpa using this

theorem find_client_of_mem {l : List intel_process_info_cache}
    {e : intel_process_info_cache} {c : Nat} (hm : e ∈ l)
    (hc : e.client_id.client_id = c) : (HASH_FIND_CLIENT l c).isSome = true := by
  induction l with
  | nil => cases hm
  | cons a l ih =>
    rcases List.mem_cons.mp hm with h | h
    · subst h
      simp [HASH_FIND_CLIENT, List.find?_cons, hc]
    · by_cases ha : a.client_id.client_id = c
      · simp [HASH_FIND_CLIENT, List.find?_cons, ha]
      · have := ih h
        simpa [HASH_FIND_CLIENT, List.find?_cons, ha] using this


theorem process_lines_mismatch_append (pdev : String) (v : String) (hv : ¬(v = pdev)) :
    ∀ (ls1 ls2 : List (Option (String × String))) (st : LoopState),
      process_lines pdev st (ls1 ++ some (drm_pdev, v) :: ls2) =
        ((process_lines pdev st ls1).1, false) := by
  intro ls1
  induction ls1 with
  | nil =>
    intro ls2 st
    simp only [List.nil_append, process_lines, process_line_mismatch pdev st v hv]
  | cons l ls1 ih =>
    intro ls2 st
    cases hpl : process_line pdev st l with
    | none => simp only [List.cons_append, process_lines, hpl]
    | some st1 =>
      simp only [List.cons_append, process_lines, hpl]
      exact ih ls2 st1

/-! Helper lemmas for the eviction argument: a record whose client id (if it
reaches the cache phase at all) differs from `c` never puts an entry with
client id `c` into the current buffer. -/

theorem update_cache_entry_client_id (p : GpuProcess) (now : Nat)
    (e : intel_process_info_cache) : (update_cache_entry p now e).client_id = e.client_id := rfl

theorem run_parse_step_current_cid (pdev : String) (cs : IntelCaches) (r : FdinfoRecord)
    (c : Nat) (hno : record_cid pdev r.pinfo r.lines ≠ some c)
    (hcur : ∀ x ∈ cs.current_update_process_cache, x.client_id.client_id ≠ c) :
    ∀ x ∈ (run_parse_step pdev cs r).current_update_process_cache,
      x.client_id.client_id ≠ c := by
  unfold run_parse_step parse_drm_fdinfo_intel
  rcases hpl : process_lines pdev { process_info := r.pinfo, client_id_set := false, cid := 0 }
    r.lines with ⟨st, ok⟩
  cases ok
  · exact hcur
  · by_cases hset : st.client_id_set = true
    · have hcid : st.cid ≠ c := by
        intro hcontra
        apply hno
        unfold record_cid
        rw [hpl]
        simp [hset, hcontra]
      simp only [hset]
      unfold parse_cache_phase
      cases hf : HASH_FIND_CLIENT cs.last_update_process_cache st.cid with
      | some e =>
        simp only
        intro x hx
        rcases List.mem_cons.mp hx with hx1 | hx1
        · subst hx1
          rw [update_cache_entry_client_id, find_client_cid hf]
          exact hcid
        · exact hcur x hx1
      | none =>
        by_cases ha : r.alloc_ok = false
        · simp only [ha, if_pos]
          exact hcur
        · simp only [ha, if_false, reduceIte]
          intro x hx
          rcases List.mem_cons.mp hx with hx1 | hx1
          · subst hx1
            rw [update_cache_entry_client_id]
            exact hcid
          · exact hcur x hx1
    · have hset2 : st.client_id_set = false := by
        revert hset
        cases st.client_id_set <;> simp
      simp only [hset2]
      exact hcur

theorem foldl_parse_current_cid (pdev : String) (c : Nat) :
    ∀ (records : List FdinfoRecord) (cs : IntelCaches),
      (∀ r ∈ records, record_cid pdev r.pinfo r.lines ≠ some c) →
      (∀ x ∈ cs.current_update_process_cache, x.client_id.client_id ≠ c) →
      ∀ x ∈ (records.foldl (run_parse_step pdev) cs).current_update_process_cache,
        x.client_id.client_id ≠ c := by
  intro records
  induction records with
  | nil =>
    intro cs _ hcur
    exact hcur
  | cons r rs ih =>
    intro cs hno hcur
    simp only [List.foldl_cons]
    exact ih (run_parse_step pdev cs r)
      (fun r2 hr2 => hno r2 (List.mem_cons_of_mem r hr2))
      (run_parse_step_current_cid pdev cs r c (hno r (List.mem_cons_self r rs)) hcur)


/-! The claim theorems. -/

/-- C1: for every engine class where both the freshly parsed cumulative sample
`c1` and the cached previous sample `c0` are present, if `c0 ≤ c1` and
`c1 - c0 ≤ t` — `t` being the elapsed wall-clock time between the cached
timestamp and the current measurement — then `parse_drm_fdinfo_intel` sets
that class's busy-percentage field of the output usage record to
round(100 * (c1 - c0) / t) clamped to [0, 100]; and if `c1 < c0` or
`c1 - c0 > t`, no busy percentage is derived for that engine class in that
cycle (the field is left unset). The three conjunct pairs cover the three
engine classes with an exposed busy-percentage field: render → `gpu_usage`,
video → `decode_usage` pairing, video-enhance → `encode_usage` pairing,
exactly as the source pairs the fields. -/
theorem C1_busy_percentage_derivation (pdev : String) (caches : IntelCaches) (now : Nat)
    (alloc_ok : Bool) (p : GpuProcess) (lines : List (Option (String × String)))
    (st : LoopState) (entry : intel_process_info_cache)
    (hrun : process_lines pdev { process_info := p, client_id_set := false, cid := 0 } lines
      = (st, true))
    (hset : st.client_id_set = true)
    (hfind : HASH_FIND_CLIENT caches.last_update_process_cache st.cid = some entry) :
    ((∀ c1 c0, st.process_info.gfx_engine_used = some c1 → entry.engine_render = some c0 →
      c0 ≤ c1 → c1 - c0 ≤ nvtop_difftime_u64 entry.last_measurement_tstamp now →
      (parse_drm_fdinfo_intel pdev caches now alloc_ok p lines).process_info.gpu_usage =
        some (busy_usage_from_time_usage_round c1 c0
          (nvtop_difftime_u64 entry.last_measurement_tstamp now))) ∧
     (∀ c1 c0, st.process_info.gfx_engine_used = some c1 → entry.engine_render = some c0 →
      (c1 < c0 ∨ nvtop_difftime_u64 entry.last_measurement_tstamp now < c1 - c0) →
      st.process_info.gpu_usage = none →
      (parse_drm_fdinfo_intel pdev caches now alloc_ok p lines).process_info.gpu_usage
        = none)) ∧
    ((∀ c1 c0, st.process_info.dec_engine_used = some c1 → entry.engine_video = some c0 →
      c0 ≤ c1 → c1 - c0 ≤ nvtop_difftime_u64 entry.last_measurement_tstamp now →
      (parse_drm_fdinfo_intel pdev caches now alloc_ok p lines).process_info.decode_usage =
        some (busy_usage_from_time_usage_round c1 c0
          (nvtop_difftime_u64 entry.last_measurement_tstamp now))) ∧
     (∀ c1 c0, st.process_info.dec_engine_used = some c1 → entry.engine_video = some c0 →
      (c1 < c0 ∨ nvtop_difftime_u64 entry.last_measurement_tstamp now < c1 - c0) →
      st.process_info.decode_usage = none →
      (parse_drm_fdinfo_intel pdev caches now alloc_ok p lines).process_info.decode_usage
        = none)) ∧
    ((∀ c1 c0, st.process_info.enc_engine_used = some c1 →
      entry.engine_video_enhance = some c0 →
      c0 ≤ c1 → c1 - c0 ≤ nvtop_difftime_u64 entry.last_measurement_tstamp now →
      (parse_drm_fdinfo_intel pdev caches now alloc_ok p lines).process_info.encode_usage =
        some (busy_usage_from_time_usage_round c1 c0
          (nvtop_difftime_u64 entry.last_measurement_tstamp now))) ∧
     (∀ c1 c0, st.process_info.enc_engine_used = some c1 →
      entry.engine_video_enhance = some c0 →
      (c1 < c0 ∨ nvtop_difftime_u64 entry.last_measurement_tstamp now < c1 - c0) →
      st.process_info.encode_usage = none →
      (parse_drm_fdinfo_intel pdev caches now alloc_ok p lines).process_info.encode_usage
        = none)) := by
  have hres : (parse_drm_fdinfo_intel pdev caches now alloc_ok p lines).process_info =
      derive_enc (derive_dec (derive_gfx st.process_info entry
          (nvtop_difftime_u64 entry.last_measurement_tstamp now)) entry
          (nvtop_difftime_u64 entry.last_measurement_tstamp now)) entry
          (nvtop_difftime_u64 entry.last_measurement_tstamp now) := by
    unfold parse_drm_fdinfo_intel
    rw [hrun]
    simp only [hset]
    unfold parse_cache_phase
    rw [hfind]
    rfl
  refine ⟨⟨?_, ?_⟩, ⟨?_, ?_⟩, ?_, ?_⟩
  · intro c1 c0 h1 h0 hm hd
    rw [hres, derive_enc_gpu_usage, derive_dec_gpu_usage]
    exact derive_gfx_pos st.process_info entry _ c1 c0 h1 h0 hm hd
  · intro c1 c0 h1 h0 hbad hnone
    rw [hres, derive_enc_gpu_usage, derive_dec_gpu_usage,
      derive_gfx_neg st.process_info entry _ c1 c0 h1 h0 hbad, hnone]
  · intro c1 c0 h1 h0 hm hd
    rw [hres, derive_enc_decode_usage]
    exact derive_dec_pos _ entry _ c1 c0
      (by rw [derive_gfx_dec_engine_used]; exact h1) h0 hm hd
  · intro c1 c0 h1 h0 hbad hnone
    rw [hres, derive_enc_decode_usage,
      derive_dec_neg _ entry _ c1 c0 (by rw [derive_gfx_dec_engine_used]; exact h1) h0 hbad,
      derive_gfx_decode_usage, hnone]
  · intro c1 c0 h1 h0 hm hd
    rw [hres]
    exact derive_enc_pos _ entry _ c1 c0
      (by rw [derive_dec_enc_engine_used, derive_gfx_enc_engine_used]; exact h1) h0 hm hd
  · intro c1 c0 h1 h0 hbad hnone
    rw [hres,
      derive_enc_neg _ entry _ c1 c0
        (by rw [derive_dec_enc_engine_used, derive_gfx_enc_engine_used]; exact h1) h0 hbad,
      derive_dec_encode_usage, derive_gfx_encode_usage, hnone]

/-- Witness for C1: client 7's render counter goes from 10^9 ns to
1.05 * 10^9 ns over 0.5 s, yielding a busy percentage of 10. -/
theorem C1_busy_percentage_derivation_witness :
    (parse_drm_fdinfo_intel "0000:00:02.0"
      { last_update_process_cache := [entryRender7], current_update_process_cache := [] }
      500000000 true (sampleProcess 10)
      [some ("drm-client-id", "7"), some ("drm-engine-render", "1050000000 ns")]
      ).process_info.gpu_usage = some 10 := by
  rw [(C1_busy_percentage_derivation "0000:00:02.0"
      { last_update_process_cache := [entryRender7], current_update_process_cache := [] }
      500000000 true (sampleProcess 10)
      [some ("drm-client-id", "7"), some ("drm-engine-render", "1050000000 ns")]
      stRender7 entryRender7 (by decide) (by decide) (by decide)).1.1
    1050000000 1000000000 (by decide) (by decide) (by decide) (by decide)]
  decide


/-- C2: after the end-of-cycle swap (`swap_process_cache_for_next_update`,
run once per polling cycle by `gpuinfo_intel_get_running_processes`), every
entry remaining in the previous-cycle buffer is freed, the current-cycle
buffer becomes the new previous buffer, and the current buffer is empty;
consequently, a cache entry present at the start of cycle N+1 that receives
no matching telemetry during cycle N+1 is absent from the cache by the end of
cycle N+1 (exactly one missed cycle before eviction). -/
theorem C2_swap_and_eviction (pdev : String) (cs : IntelCaches)
    (records : List FdinfoRecord) (e : intel_process_info_cache)
    (hstart : cs.current_update_process_cache = [])
    (_hmem : e ∈ cs.last_update_process_cache)
    (hno : ∀ r ∈ records, record_cid pdev r.pinfo r.lines ≠ some e.client_id.client_id) :
    (∀ cs2 : IntelCaches, swap_process_cache_for_next_update cs2 =
      { last_update_process_cache := cs2.current_update_process_cache,
        current_update_process_cache := [] }) ∧
    e ∉ (run_cycle pdev cs records).last_update_process_cache ∧
    e ∉ (run_cycle pdev cs records).current_update_process_cache := by
  have hfold := foldl_parse_current_cid pdev e.client_id.client_id records cs hno
    (by rw [hstart]; intro x hx; cases hx)
  refine ⟨fun cs2 => rfl, ?_, ?_⟩
  · intro hmem2
    exact hfold e hmem2 rfl
  · intro hmem2
    exact absurd hmem2 (List.not_mem_nil e)

/-- Witness for C2: the cached client 7 gets no telemetry in a cycle that only
sees client 9, and is gone from both buffers after the swap. -/
theorem C2_swap_and_eviction_witness :
    entryRender7 ∉ (run_cycle "0000:00:02.0"
      { last_update_process_cache := [entryRender7], current_update_process_cache := [] }
      [recordClient9]).last_update_process_cache ∧
    entryRender7 ∉ (run_cycle "0000:00:02.0"
      { last_update_process_cache := [entryRender7], current_update_process_cache := [] }
      [recordClient9]).current_update_process_cache :=
  (C2_swap_and_eviction "0000:00:02.0"
    { last_update_process_cache := [entryRender7], current_update_process_cache := [] }
    [recordClient9] entryRender7 rfl (by decide) (by decide)).2

/-- C3: `parse_drm_fdinfo_intel` returns false iff some device-identity
(`drm-pdev`) line's value differs from this device's bus-address string, or no
line successfully sets the client id; in all other cases it returns true, even
when engine-time fields are only partially populated. -/
theorem C3_return_value_iff (pdev : String) (caches : IntelCaches) (now : Nat)
    (alloc_ok : Bool) (p : GpuProcess) (lines : List (Option (String × String))) :
    (parse_drm_fdinfo_intel pdev caches now alloc_ok p lines).success = false ↔
      ((∃ l ∈ lines, line_pdev_mismatch pdev l = true) ∨
        ∀ l ∈ lines, line_sets_client_id l = false) := by
  rw [parse_success_eq]
  obtain ⟨hs1, hs2⟩ := process_lines_spec pdev lines
    { process_info := p, client_id_set := false, cid := 0 }
  cases hok : (process_lines pdev { process_info := p, client_id_set := false, cid := 0 }
      lines).2
  · simp only [Bool.false_and]
    exact ⟨fun _ => Or.inl (hs1.mp hok), fun _ => trivial⟩
  · simp only [Bool.true_and]
    rw [hs2 hok]
    simp only [Bool.false_or]
    have hnm : ¬∃ l ∈ lines, line_pdev_mismatch pdev l = true := by
      intro hm
      rw [hs1.mpr hm] at hok
      exact Bool.noConfusion hok
    rw [List.any_eq_false]
    constructor
    · intro h
      refine Or.inr (fun l hl => ?_)
      have := h l hl
      revert this
      cases line_sets_client_id l <;> simp
    · intro h l hl
      rcases h with h | h
      · exact absurd h hnm
      · rw [h l hl]
        simp

/-- C4: for every telemetry record containing a device-identity line whose
value mismatches the device's bus address, `parse_drm_fdinfo_intel` returns
failure and performs no cache mutation: both buffers are exactly as they were
before the call. -/
theorem C4_mismatch_no_cache_mutation (pdev : String) (caches : IntelCaches) (now : Nat)
    (alloc_ok : Bool) (p : GpuProcess) (lines : List (Option (String × String)))
    (hmis : ∃ l ∈ lines, line_pdev_mismatch pdev l = true) :
    (parse_drm_fdinfo_intel pdev caches now alloc_ok p lines).success = false ∧
    (parse_drm_fdinfo_intel pdev caches now alloc_ok p lines).caches = caches := by
  obtain ⟨hs1, _⟩ := process_lines_spec pdev lines
    { process_info := p, client_id_set := false, cid := 0 }
  have h2 := hs1.mpr hmis
  unfold parse_drm_fdinfo_intel
  rcases hpl : process_lines pdev { process_info := p, client_id_set := false, cid := 0 } lines
    with ⟨st, ok⟩
  rw [hpl] at h2
  cases ok
  · exact ⟨rfl, rfl⟩
  · simp at h2

/-- Witness for C4: a stream reporting bus address 0000:01:00.0 on a device at
0000:00:02.0 is rejected and both cache buffers stay empty. -/
theorem C4_mismatch_no_cache_mutation_witness :
    (parse_drm_fdinfo_intel "0000:00:02.0" emptyCaches 0 true (sampleProcess 10)
      [some ("drm-pdev", "0000:01:00.0")]).success = false ∧
    (parse_drm_fdinfo_intel "0000:00:02.0" emptyCaches 0 true (sampleProcess 10)
      [some ("drm-pdev", "0000:01:00.0")]).caches = emptyCaches :=
  C4_mismatch_no_cache_mutation "0000:00:02.0" emptyCaches 0 true (sampleProcess 10)
    [some ("drm-pdev", "0000:01:00.0")] (by decide)


/-- C5 (counterexample): the claim says the video key maps to the decode field
and the video-enhance key to the encode field. On a record with a well-formed
`drm-engine-video` line, the decode field stays unset and the encode field
receives the value — and a `drm-engine-video-enhance` line sets the decode
field — the opposite of the claimed mapping (source lines 169-176). -/
theorem C5_video_mapping_counterexample :
    (parse_drm_fdinfo_intel "0000:00:02.0" emptyCaches 0 true (sampleProcess 10)
      [some ("drm-client-id", "7"), some ("drm-engine-video", "100 ns")]
      ).process_info.dec_engine_used = none ∧
    (parse_drm_fdinfo_intel "0000:00:02.0" emptyCaches 0 true (sampleProcess 10)
      [some ("drm-client-id", "7"), some ("drm-engine-video", "100 ns")]
      ).process_info.enc_engine_used = some 100 ∧
    (parse_drm_fdinfo_intel "0000:00:02.0" emptyCaches 0 true (sampleProcess 10)
      [some ("drm-client-id", "7"), some ("drm-engine-video-enhance", "100 ns")]
      ).process_info.dec_engine_used = some 100 := by
  decide

/-- C5 (amended): for every well-formed engine-time line, the render key sets
the output record's graphics field (`gfx_engine_used`), the video key sets the
encode field (`enc_engine_used`), the video-enhance key sets the decode field
(`dec_engine_used`), and the copy class changes no exposed output field. -/
theorem C5_engine_key_mapping (pdev : String) (st : LoopState) (v : String) (tv : Nat)
    (hv : strtoull_ns v = some tv) :
    (∃ st1, process_line pdev st (some (drm_intel_render, v)) = some st1 ∧
      st1.process_info.gfx_engine_used = some tv ∧
      st1.process_info.dec_engine_used = st.process_info.dec_engine_used ∧
      st1.process_info.enc_engine_used = st.process_info.enc_engine_used) ∧
    (∃ st1, process_line pdev st (some (drm_intel_video, v)) = some st1 ∧
      st1.process_info.enc_engine_used = some tv ∧
      st1.process_info.gfx_engine_used = st.process_info.gfx_engine_used ∧
      st1.process_info.dec_engine_used = st.process_info.dec_engine_used) ∧
    (∃ st1, process_line pdev st (some (drm_intel_video_enhance, v)) = some st1 ∧
      st1.process_info.dec_engine_used = some tv ∧
      st1.process_info.gfx_engine_used = st.process_info.gfx_engine_used ∧
      st1.process_info.enc_engine_used = st.process_info.enc_engine_used) ∧
    process_line pdev st (some (drm_intel_copy, v)) = some st := by
  have hr : process_line pdev st (some (drm_intel_render, v)) =
      some { st with process_info := { st.process_info with gfx_engine_used := some tv } } := by
    simp [process_line, hv, drm_intel_render, drm_intel_copy, drm_intel_video,
      drm_intel_video_enhance, drm_pdev, drm_client_id]
  have hvd : process_line pdev st (some (drm_intel_video, v)) =
      some { st with process_info := { st.process_info with enc_engine_used := some tv } } := by
    simp [process_line, hv, drm_intel_render, drm_intel_copy, drm_intel_video,
      drm_intel_video_enhance, drm_pdev, drm_client_id]
  have hve : process_line pdev st (some (drm_intel_video_enhance, v)) =
      some { st with process_info := { st.process_info with dec_engine_used := some tv } } := by
    simp [process_line, hv, drm_intel_render, drm_intel_copy, drm_intel_video,
      drm_intel_video_enhance, drm_pdev, drm_client_id]
  have hcp : process_line pdev st (some (drm_intel_copy, v)) = some st := by
    simp [process_line, hv, drm_intel_render, drm_intel_copy, drm_intel_video,
      drm_intel_video_enhance, drm_pdev, drm_client_id]
  exact ⟨⟨_, hr, rfl, rfl, rfl⟩, ⟨_, hvd, rfl, rfl, rfl⟩, ⟨_, hve, rfl, rfl, rfl⟩, hcp⟩

/-- Witness for the amended C5 at the value string "1000 ns". -/
theorem C5_engine_key_mapping_witness :
    (∃ st1, process_line "0000:00:02.0" stClient5 (some (drm_intel_video, "1000 ns"))
        = some st1 ∧
      st1.process_info.enc_engine_used = some 1000 ∧
      st1.process_info.gfx_engine_used = stClient5.process_info.gfx_engine_used ∧
      st1.process_info.dec_engine_used = stClient5.process_info.dec_engine_used) :=
  (C5_engine_key_mapping "0000:00:02.0" stClient5 "1000 ns" 1000 (by decide)).2.1

/-- C6 (code bug): the spec's Unique Client Key is `{client_id, pid}`, but
`HASH_FIND_CLIENT` compares only `sizeof(unsigned)` bytes — the `client_id`
member. After a cycle caching client 5 of pid 10, a spec-conforming lookup for
key (5, pid 20) finds nothing, yet the code's lookup keyed on client id 5
returns pid 10's entry, and a cycle-2 record for client 5 of pid 20 consumes
that entry and derives a busy percentage from the other process's counter. -/
theorem C6_key_length_bug :
    hash_find_client_spec cachesAfterClient5.last_update_process_cache
      { client_id := 5, pid := 20 } = none ∧
    HASH_FIND_CLIENT cachesAfterClient5.last_update_process_cache 5 =
      some entryClient5Render1000 ∧
    (parse_drm_fdinfo_intel "0000:00:02.0" cachesAfterClient5 1000 true (sampleProcess 20)
      [some ("drm-client-id", "5"), some ("drm-engine-render", "1500 ns")]
      ).process_info.gpu_usage = some 50 := by
  decide

/-- C7: if allocation of a new cache entry fails for a first-seen client key,
`parse_drm_fdinfo_intel` abandons the cache update for that record (neither
cache buffer is modified) but still returns true, and the engine-time fields
already written to the output usage record are preserved. -/
theorem C7_alloc_failure_preserves (pdev : String) (caches : IntelCaches) (now : Nat)
    (p : GpuProcess) (lines : List (Option (String × String))) (st : LoopState)
    (hrun : process_lines pdev { process_info := p, client_id_set := false, cid := 0 } lines
      = (st, true))
    (hset : st.client_id_set = true)
    (hfind : HASH_FIND_CLIENT caches.last_update_process_cache st.cid = none) :
    (parse_drm_fdinfo_intel pdev caches now false p lines).success = true ∧
    (parse_drm_fdinfo_intel pdev caches now false p lines).caches = caches ∧
    (parse_drm_fdinfo_intel pdev caches now false p lines).process_info = st.process_info := by
  unfold parse_drm_fdinfo_intel
  rw [hrun]
  simp only [hset]
  unfold parse_cache_phase
  rw [hfind]
  exact ⟨rfl, rfl, rfl⟩

/-- Witness for C7: first sighting of client 5 with a failing allocation. -/
theorem C7_alloc_failure_preserves_witness :
    (parse_drm_fdinfo_intel "0000:00:02.0" emptyCaches 0 false (sampleProcess 10)
      [some ("drm-client-id", "5")]).success = true ∧
    (parse_drm_fdinfo_intel "0000:00:02.0" emptyCaches 0 false (sampleProcess 10)
      [some ("drm-client-id", "5")]).caches = emptyCaches ∧
    (parse_drm_fdinfo_intel "0000:00:02.0" emptyCaches 0 false (sampleProcess 10)
      [some ("drm-client-id", "5")]).process_info = stClient5.process_info :=
  C7_alloc_failure_preserves "0000:00:02.0" emptyCaches 0 (sampleProcess 10)
    [some ("drm-client-id", "5")] stClient5 (by decide) rfl rfl

/-- C8 (code bug): the claim says each of the four clock attributes sets its
own distinct dynamic-info field. In the source all four
`SET_GPUINFO_DYNAMIC` calls target `gpu_clock_speed` (lines 332, 337, 345,
350): with all four attributes present, `gpu_clock_speed` ends up holding the
last one read (`mem_max_freq_mhz`) and the other three fields stay unset. -/
theorem C8_clock_fields_bug :
    gpuinfo_intel_refresh_dynamic_info
      { gt_cur_freq_mhz := some "300", gt_max_freq_mhz := some "1100",
        mem_cur_freq_mhz := some "2000", mem_max_freq_mhz := some "2500" }
      { gpu_clock_speed := none, gpu_clock_speed_max := none,
        mem_clock_speed := none, mem_clock_speed_max := none } =
      { gpu_clock_speed := some 2500, gpu_clock_speed_max := none,
        mem_clock_speed := none, mem_clock_speed_max := none } := by
  decide


/-- C9: whenever a record's parse reaches the insertion into the current-cycle
buffer (the cache entry was found in the previous buffer, or allocation
succeeds) while an entry with the same client id is already in the current
buffer, the debug-time assertion of source lines 222-227 fires
(`assert_ok = false`), and the second insertion does not silently overwrite
the first entry: the first entry is still present in the current buffer after
the call. -/
theorem C9_duplicate_insertion_flagged (pdev : String) (caches : IntelCaches) (now : Nat)
    (alloc_ok : Bool) (p : GpuProcess) (lines : List (Option (String × String)))
    (st : LoopState) (e0 : intel_process_info_cache)
    (hrun : process_lines pdev { process_info := p, client_id_set := false, cid := 0 } lines
      = (st, true))
    (hset : st.client_id_set = true)
    (hmem : e0 ∈ caches.current_update_process_cache)
    (hcid : e0.client_id.client_id = st.cid)
    (hins : (HASH_FIND_CLIENT caches.last_update_process_cache st.cid).isSome = true ∨
      alloc_ok = true) :
    (parse_drm_fdinfo_intel pdev caches now alloc_ok p lines).assert_ok = false ∧
    e0 ∈ (parse_drm_fdinfo_intel pdev caches now alloc_ok p lines
      ).caches.current_update_process_cache := by
  have hfc : (HASH_FIND_CLIENT caches.current_update_process_cache st.cid).isNone = false := by
    rcases Option.isSome_iff_exists.mp (find_client_of_mem hmem hcid) with ⟨a, ha⟩
    rw [ha]
    rfl
  unfold parse_drm_fdinfo_intel
  rw [hrun]
  simp only [hset]
  unfold parse_cache_phase
  cases hf : HASH_FIND_CLIENT caches.last_update_process_cache st.cid with
  | some e => exact ⟨hfc, List.mem_cons_of_mem _ hmem⟩
  | none =>
    have halloc : alloc_ok = true := by
      rcases hins with h | h
      · rw [hf] at h
        exact Bool.noConfusion h
      · exact h
    rw [halloc]
    exact ⟨hfc, List.mem_cons_of_mem _ hmem⟩

/-- Witness for C9: client 5 is already in the current buffer when a second
record for client 5 arrives in the same cycle. -/
theorem C9_duplicate_insertion_flagged_witness :
    (parse_drm_fdinfo_intel "0000:00:02.0"
      { last_update_process_cache := [], current_update_process_cache := [entryClient5] }
      3 true (sampleProcess 20) [some ("drm-client-id", "5")]).assert_ok = false ∧
    entryClient5 ∈ (parse_drm_fdinfo_intel "0000:00:02.0"
      { last_update_process_cache := [], current_update_process_cache := [entryClient5] }
      3 true (sampleProcess 20) [some ("drm-client-id", "5")]
      ).caches.current_update_process_cache :=
  C9_duplicate_insertion_flagged "0000:00:02.0"
    { last_update_process_cache := [], current_update_process_cache := [entryClient5] }
    3 true (sampleProcess 20) [some ("drm-client-id", "5")] stClient5Pid20 entryClient5
    (by decide) rfl (by decide) rfl (Or.inr rfl)

/-- C10: when `parse_drm_fdinfo_intel` returns false — on a device-identity
mismatch or for a missing client id — the mutable output usage record is not
rolled back: the record returned is exactly the one accumulated from the lines
preceding the failure point, so engine-time fields already parsed remain set.
First conjunct: every false return hands back the loop-accumulated record
(for the missing-client-id return the failure point is end of stream, so this
is the record after all lines). Second conjunct: on a mismatching identity
line the accumulated record is the one built from the lines before that line.
Third conjunct: a fully consumed stream that never set the client id fails
with the record built from all its lines. -/
theorem C10_no_rollback_on_failure (pdev : String) (caches : IntelCaches) (now : Nat)
    (alloc_ok : Bool) (p : GpuProcess) :
    (∀ lines : List (Option (String × String)),
      (parse_drm_fdinfo_intel pdev caches now alloc_ok p lines).success = false →
      (parse_drm_fdinfo_intel pdev caches now alloc_ok p lines).process_info =
        (process_lines pdev { process_info := p, client_id_set := false, cid := 0 } lines
          ).1.process_info) ∧
    (∀ (ls1 ls2 : List (Option (String × String))) (v : String), ¬(v = pdev) →
      (parse_drm_fdinfo_intel pdev caches now alloc_ok p
        (ls1 ++ some (drm_pdev, v) :: ls2)).success = false ∧
      (parse_drm_fdinfo_intel pdev caches now alloc_ok p
        (ls1 ++ some (drm_pdev, v) :: ls2)).process_info =
        (process_lines pdev { process_info := p, client_id_set := false, cid := 0 } ls1
          ).1.process_info) ∧
    (∀ (lines : List (Option (String × String))) (st : LoopState),
      process_lines pdev { process_info := p, client_id_set := false, cid := 0 } lines
        = (st, true) →
      st.client_id_set = false →
      (parse_drm_fdinfo_intel pdev caches now alloc_ok p lines).success = false ∧
      (parse_drm_fdinfo_intel pdev caches now alloc_ok p lines).process_info
        = st.process_info) := by
  refine ⟨?_, ?_, ?_⟩
  · intro lines hfail
    rw [parse_success_eq] at hfail
    unfold parse_drm_fdinfo_intel
    rcases hpl : process_lines pdev { process_info := p, client_id_set := false, cid := 0 }
      lines with ⟨st, ok⟩
    cases ok
    · rfl
    · rw [hpl] at hfail
      simp at hfail
      simp only [hfail]
      rfl
  · intro ls1 ls2 v hv
    unfold parse_drm_fdinfo_intel
    rw [process_lines_mismatch_append pdev v hv ls1 ls2
      { process_info := p, client_id_set := false, cid := 0 }]
    exact ⟨rfl, rfl⟩
  · intro lines st hrun hset
    unfold parse_drm_fdinfo_intel
    rw [hrun]
    simp only [hset]
    exact ⟨rfl, rfl⟩

/-- Witness for C10, exercising both failure modes: a render line before a
mismatching identity line fails with `gfx_engine_used = some 100` preserved,
and a stream holding only that render line (no client id at all) fails with
the same accumulated record. -/
theorem C10_no_rollback_on_failure_witness :
    ((parse_drm_fdinfo_intel "0000:00:02.0" emptyCaches 0 true (sampleProcess 10)
      ([some ("drm-engine-render", "100 ns")] ++ some (drm_pdev, "0000:01:00.0") :: [])
      ).success = false ∧
    (parse_drm_fdinfo_intel "0000:00:02.0" emptyCaches 0 true (sampleProcess 10)
      ([some ("drm-engine-render", "100 ns")] ++ some (drm_pdev, "0000:01:00.0") :: [])
      ).process_info =
      (process_lines "0000:00:02.0"
        { process_info := sampleProcess 10, client_id_set := false, cid := 0 }
        [some ("drm-engine-render", "100 ns")]).1.process_info) ∧
    ((parse_drm_fdinfo_intel "0000:00:02.0" emptyCaches 0 true (sampleProcess 10)
      [some ("drm-engine-render", "100 ns")]).success = false ∧
    (parse_drm_fdinfo_intel "0000:00:02.0" emptyCaches 0 true (sampleProcess 10)
      [some ("drm-engine-render", "100 ns")]).process_info
      = stRender100NoClient.process_info) ∧
    stRender100NoClient.process_info.gfx_engine_used = some 100 :=
  ⟨(C10_no_rollback_on_failure "0000:00:02.0" emptyCaches 0 true (sampleProcess 10)).2.1
    [some ("drm-engine-render", "100 ns")] [] "0000:01:00.0" (by decide),
   (C10_no_rollback_on_failure "0000:00:02.0" emptyCaches 0 true (sampleProcess 10)).2.2
    [some ("drm-engine-render", "100 ns")] stRender100NoClient (by decide) rfl,
   by decide⟩

end NvtopIntel
